import Mathlib

/-!
Verification of `count_to_10.py`: a script whose single function
`count_from_1_to_10` iterates `for i in range(1, 11)` and executes
`print(i)`, and whose module body calls the function under the
`if __name__ == "__main__"` guard.

The embedding models the observable machine state (`World`) with the
standard output stream, the standard error stream, the file system and
the module-level globals, so that frame conditions can be stated.
Python's `print(i)` appends `str(i)` followed by a newline to standard
output; Python's `range(a, b)` (step 1) is the list `[a, a+1, ..., b-1]`.
-/

/-- Python runtime values, as far as this script needs them: the function
returns `None` (it has no `return` statement). -/
inductive PyValue where
  | none
  | int (n : Int)
  | str (s : String)
deriving DecidableEq

/-- The observable state of an invocation: standard output (a list of
writes), standard error, the file system (name/content pairs), and the
module-level global bindings. -/
structure World where
  stdout : List String
  stderr : List String
  files : List (String × String)
  globals : List (String × PyValue)
deriving DecidableEq

/-- Python `range(a, b)` with the default step 1: the integers
`a, a+1, ..., b-1` (empty when `b ≤ a`). -/
def pyRange (a b : Int) : List Int :=
  (List.range (b - a).toNat).map (fun (k : Nat) => a + (k : Int))

/-- Python `print(i)` with default arguments: write `str(i)` followed by
a newline to standard output; nothing else changes. -/
def printLine (i : Int) (w : World) : World :=
  { w with stdout := w.stdout ++ [toString i ++ "\n"] }

/-- The function `count_from_1_to_10` from `count_to_10.py`:
`for i in range(1, 11): print(i)`, returning `None`. -/
def count_from_1_to_10 (w : World) : World × PyValue :=
  ((pyRange 1 11).foldl (fun acc i => printLine i acc) w, PyValue.none)

/-- The ten lines the spec displays as the program output, each
newline-terminated. -/
def tenLines : List String :=
  ["1\n", "2\n", "3\n", "4\n", "5\n", "6\n", "7\n", "8\n", "9\n", "10\n"]

/-- The module body of `count_to_10.py`: run `count_from_1_to_10()` only
when the module name is `"__main__"`; a plain import executes nothing
else at top level. -/
def runScript (name : String) (w : World) : World :=
  if name = "__main__" then (count_from_1_to_10 w).1 else w

/-- A fresh process state: empty streams, no files, no globals. -/
def initWorld : World :=
  { stdout := [], stderr := [], files := [], globals := [] }

/-- Invoking the script as a program: Python sets `__name__` to
`"__main__"`; the script reads no command-line arguments and no
environment variables, so both are ignored. -/
def invoke (args : List String) (env : List (String × String)) : World :=
  runScript "__main__" initWorld

/-- Python `print(i)` on a stream that may be closed: it succeeds with
the written line exactly when the stream is open and writable, and
raises otherwise. -/
def printChecked (streamOpen : Bool) (i : Int) : Except String String :=
  if streamOpen then Except.ok (toString i ++ "\n") else Except.error "closed stream"

/-- The loop of `count_from_1_to_10` run against a stream that may be
closed: collect the written lines, propagating the first raised error. -/
def count_from_1_to_10_checked (streamOpen : Bool) : Except String (List String) :=
  (pyRange 1 11).foldl
    (fun acc i => acc.bind (fun out => (printChecked streamOpen i).map (fun l => out ++ [l])))
    (Except.ok [])

/-- Running the script as a process: the collected output together with
the exit code, which is 0 exactly when the body raised no exception. -/
def runMain (args : List String) (streamOpen : Bool) : List String × Nat :=
  match count_from_1_to_10_checked streamOpen with
  | Except.ok out => (out, 0)
  | Except.error _ => ([], 1)

/-- Modelled from the spec: "It initializes an integer to 1, prints it,
increments, and repeats until the value exceeds 10, then terminates."
`specCounterValues i` is the sequence of values printed by that loop
when the counter currently holds `i`; the described algorithm starts it
at 1. -/
def specCounterValues (i : Int) : List Int :=
  if h : i > 10 then [] else i :: specCounterValues (i + 1)
termination_by (11 - i).toNat
decreasing_by
  simp at h
  omega

theorem pyRange_one_eleven : pyRange 1 11 = [1, 2, 3, 4, 5, 6, 7, 8, 9, 10] := by
  decide

theorem foldl_printLine (xs : List Int) (w : World) :
    xs.foldl (fun acc i => printLine i acc) w =
      { w with stdout := w.stdout ++ xs.map (fun i => toString i ++ "\n") } := by
  induction xs generalizing w with
  | nil => simp
  | cons x xs ih =>
    rw [List.foldl_cons, ih]
    simp [printLine]

theorem map_pyRange_lines :
    (pyRange 1 11).map (fun i => toString i ++ "\n") = tenLines := by
  decide

/-- C1: a single invocation of `count_from_1_to_10` writes to standard
output exactly the ten newline-terminated decimal lines "1" through
"10", in ascending order, and nothing else. -/
theorem c1_stdout_exact (w : World) :
    (count_from_1_to_10 w).1.stdout =
      w.stdout ++ ["1\n", "2\n", "3\n", "4\n", "5\n", "6\n", "7\n", "8\n", "9\n", "10\n"] := by
  have h := foldl_printLine (pyRange 1 11) w
  have hm := map_pyRange_lines
  simp [count_from_1_to_10, h, hm, tenLines]

/-- C2: the loop of `count_from_1_to_10` terminates on every invocation:
`range(1, 11)` has exactly 10 elements, the counter value 11 is never
reached, and every run appends exactly 10 lines to standard output and
stops. -/
theorem c2_loop_terminates :
    (pyRange 1 11).length = 10 ∧ (11 : Int) ∉ pyRange 1 11 ∧
      ∀ w : World, (count_from_1_to_10 w).1.stdout.length = w.stdout.length + 10 := by
  refine ⟨by decide, by decide, fun w => ?_⟩
  have h := foldl_printLine (pyRange 1 11) w
  rw [pyRange_one_eleven] at h
  simp only [count_from_1_to_10, pyRange_one_eleven, h]
  simp

theorem pyRange_nil (a b : Int) (h : b ≤ a) : pyRange a b = [] := by
  unfold pyRange
  have h0 : (b - a).toNat = 0 := by omega
  rw [h0]
  rfl

theorem pyRange_cons (a b : Int) (h : a < b) :
    pyRange a b = a :: pyRange (a + 1) b := by
  unfold pyRange
  have hn : (b - a).toNat = (b - (a + 1)).toNat + 1 := by omega
  rw [hn, List.range_succ_eq_map, List.map_cons, List.map_map, List.cons_eq_cons]
  refine ⟨by simp, List.map_congr_left fun k _ => ?_⟩
  simp only [Function.comp_apply, Nat.succ_eq_add_one]
  push_cast
  ring

theorem spec_eq_pyRange (i : Int) : specCounterValues i = pyRange i 11 := by
  unfold specCounterValues
  split
  · rename_i h
    rw [pyRange_nil i 11 (by omega)]
  · rename_i h
    rw [spec_eq_pyRange (i + 1), ← pyRange_cons i 11 (by omega)]
termination_by (11 - i).toNat
decreasing_by
  omega

/-- C3: the for-loop over `range(1, 11)` is equivalent to the spec's
algorithm (start the counter at 1, print, increment, repeat until the
value exceeds 10): both visit the same counter values, hence print the
same lines. -/
theorem c3_loop_refines_spec :
    specCounterValues 1 = pyRange 1 11 ∧
      (specCounterValues 1).map (fun i => toString i ++ "\n") = tenLines := by
  have h := spec_eq_pyRange 1
  exact ⟨h, by rw [h]; decide⟩

/-- C4: every value the loop counter takes during an iteration of
`count_from_1_to_10` satisfies `1 ≤ i ≤ 10`. -/
theorem c4_counter_invariant (i : Int) (h : i ∈ pyRange 1 11) :
    1 ≤ i ∧ i ≤ 10 := by
  rw [pyRange_one_eleven] at h
  simp at h
  omega

theorem c4_counter_invariant_witness :
    (5 : Int) ∈ pyRange 1 11 ∧ (1 ≤ (5 : Int) ∧ (5 : Int) ≤ 10) :=
  ⟨by decide, c4_counter_invariant 5 (by decide)⟩

/-- C5: the program is deterministic and ignores its inputs: any two
invocations, whatever their command-line arguments and environment
variables, yield identical observable states. -/
theorem c5_deterministic (args₁ : List String) (env₁ : List (String × String))
    (args₂ : List String) (env₂ : List (String × String)) :
    invoke args₁ env₁ = invoke args₂ env₂ :=
  rfl

/-- C6: under normal conditions (the output stream open and writable),
`count_from_1_to_10` raises no error and produces its full ten-line
output. -/
theorem c6_no_failure (streamOpen : Bool) (h : streamOpen = true) :
    count_from_1_to_10_checked streamOpen = Except.ok tenLines := by
  rw [h]
  rfl

theorem c6_no_failure_witness :
    count_from_1_to_10_checked true = Except.ok tenLines :=
  c6_no_failure true rfl

/-- C7: invoked with no arguments, the script prints the ten-line
sequence and exits with status 0; on any normal completion the exit
code is 0 regardless of arguments. -/
theorem c7_exit_zero :
    runMain [] true = (tenLines, 0) ∧ ∀ args : List String, (runMain args true).2 = 0 :=
  ⟨rfl, fun _ => rfl⟩

/-- C8: the only side effect of `count_from_1_to_10` is on standard
output: standard error, the file system and the module globals are left
exactly as they were, while standard output gains the ten lines. -/
theorem c8_frame_stdout_only (w : World) :
    (count_from_1_to_10 w).1.stderr = w.stderr ∧
      (count_from_1_to_10 w).1.files = w.files ∧
      (count_from_1_to_10 w).1.globals = w.globals ∧
      (count_from_1_to_10 w).1.stdout = w.stdout ++ tenLines := by
  have h := foldl_printLine (pyRange 1 11) w
  have hm := map_pyRange_lines
  simp [count_from_1_to_10, h, hm]

/-- C9: importing the module (module name different from "__main__")
executes nothing: the observable state, standard output included, is
unchanged. -/
theorem c9_import_silent (name : String) (w : World) (h : name ≠ "__main__") :
    runScript name w = w := by
  simp [runScript, h]

theorem c9_import_silent_witness :
    runScript "count_to_10" initWorld = initWorld :=
  c9_import_silent "count_to_10" initWorld (by decide)

/-- C10: `count_from_1_to_10` takes no parameters beyond the ambient
state, returns `None` on every invocation, and its whole observable
behaviour is appending the ten printed lines to standard output. -/
theorem c10_returns_none (w : World) :
    (count_from_1_to_10 w).2 = PyValue.none ∧
      (count_from_1_to_10 w).1 = { w with stdout := w.stdout ++ tenLines } := by
  have h := foldl_printLine (pyRange 1 11) w
  have hm := map_pyRange_lines
  exact ⟨rfl, by simp [count_from_1_to_10, h, hm]⟩
